import Mathlib

/-!
Verification of the student-backend conversation pipeline.

This file shallowly embeds the program-filtering, JSON-extraction,
prompt-assembly, conversation-orchestration and tool-validation logic of
the repository (app/services/groq_service.py,
app/services/openai_agent_service.py, app/routers/student.py,
app/models/student.py, app/schemas/student.py) and proves or refutes the
specification claims about them.

Conventions of the embedding:
- Python strings are Lean `String`s; `str.lower()` is modelled by
  `pyLower` (ASCII case folding, which covers every string appearing in
  the claims and examples).
- Python dict rows coming back from the database are modelled as Lean
  structures whose fields are `Option`-typed where the code guards with
  `dict.get` / `isinstance`: `none` stands for "key missing or value not
  of the guarded type".
- Python `datetime` timestamps are opaque `Nat` values supplied as
  parameters (they come from the ambient clock, an external effect).
- Numeric fees/budgets are `Int` (every comparison in the code is on
  numbers that are integers in all examples; float-specific behaviour is
  out of scope of the claims).
-/

/-- Model of Python `str.lower()` (ASCII case folding). -/
def pyLower (s : String) : String :=
  String.mk (s.toList.map Char.toLower)

/-- Boolean contiguous-sublist test on lists of characters. -/
def listIsInfix (a : List Char) : List Char → Bool
  | [] => a.isEmpty
  | c :: rest => a.isPrefixOf (c :: rest) || listIsInfix a rest

/-- Model of Python `a in b` on strings (substring test). -/
def pyInStr (a b : String) : Bool :=
  listIsInfix a.toList b.toList

/-! ## Program rows and the chat filter
(`GroqService.chat_with_student`, app/services/groq_service.py lines 288-366)

A program row as used by the filter.  `location` and `program_title` are
`Option String`: `none` models a missing key or a non-string value (the
code guards both with `isinstance(..., str)`).  `fees` is `Option Int`:
`none` models a missing key or a value that is not a number (guarded by
`isinstance(..., (int, float))`). -/
structure Program where
  location : Option String
  program_title : Option String
  fees : Option Int
  deriving DecidableEq, Repr

/-- Student fields read by the chat filter.  `preferred_location = []`
models a missing or falsy `preferred_location` key (after the router's
string-to-singleton-list normalisation, the code's type-sniffing turns a
truthy value into a non-empty list of strings).  `field_of_study = ""`
models a missing or falsy `field_of_study`.  `budget_range = none` models
a missing/falsy `additional_preferences` dict or one without a
`budget_range` string. -/
structure ChatStudent where
  preferred_location : List String
  field_of_study : String
  budget_range : Option String
  deriving DecidableEq, Repr

/-- Stage 1 of the chat filter (lines 296-324): if `preferred_location`
is truthy, keep the programs whose lower-cased location is a member of
the lower-cased preferred-location list; if none match, fall back to the
full input list. -/
def chatLocationStage (preferred_location : List String) (all_programs : List Program) :
    List Program :=
  if preferred_location ≠ [] then
    let prefs := preferred_location.map pyLower
    let f := all_programs.filter fun program =>
      match program.location with
      | some loc => prefs.contains (pyLower loc)
      | none => false
    if f = [] then all_programs else f
  else all_programs

/-- Stage 2 of the chat filter (lines 327-337): if `field_of_study` is
truthy, keep the programs whose lower-cased title contains it as a
substring; if none match, keep the previous list. -/
def chatFieldStage (field_of_study : String) (filtered_programs : List Program) :
    List Program :=
  if field_of_study ≠ "" then
    let fos := pyLower field_of_study
    let f := filtered_programs.filter fun program =>
      match program.program_title with
      | some t => pyInStr fos (pyLower t)
      | none => false
    if f ≠ [] then f else filtered_programs
  else filtered_programs

/-- Model of Python `s.split(sep)` for a one-character separator: the
maximal runs between occurrences of the separator; `"".split(sep)` is
`[""]` and every separator occurrence contributes a boundary. -/
def pySplitOn (sep : Char) : List Char → List (List Char)
  | [] => [[]]
  | x :: xs =>
      match pySplitOn sep xs with
      | h :: t => if x = sep then [] :: h :: t else (x :: h) :: t
      | [] => if x = sep then [[], []] else [[x]]

/-- Model of Python `int(s)` on the pieces produced by
`budget_range.split("-")`: optional surrounding whitespace, an optional
`+` sign, then one or more decimal digits (a `-` sign cannot survive the
split).  Returns `none` where `int` raises `ValueError`. -/
def pyIntOfChars (s : List Char) : Option Int :=
  let t := s.dropWhile (fun c => c = ' ')
  let t := (t.reverse.dropWhile (fun c => c = ' ')).reverse
  let t := match t with
    | '+' :: rest => rest
    | _ => t
  if t ≠ [] ∧ t.all Char.isDigit then
    some (t.foldl (fun acc c => acc * 10 + ((c.toNat : Int) - ('0'.toNat : Int))) (0 : Int))
  else none

/-- Model of `min_budget, max_budget = map(int, budget_range.split("-"))`
(lines 347-348): the split must produce exactly two pieces and both must
parse as ints, otherwise `ValueError` is raised (modelled as `none`). -/
def pyParseBudgetRange (budget_range : String) : Option (Int × Int) :=
  match (pySplitOn '-' budget_range.toList).map pyIntOfChars with
  | [some mn, some mx] => some (mn, mx)
  | _ => none

/-- Stage 3 of the chat filter (lines 340-362): if
`additional_preferences.budget_range` is a string parsing as "min-max",
keep the programs whose numeric fees lie in `[min, max]`; if none match
(or parsing fails), keep the previous list. -/
def chatBudgetStage (budget_range : Option String) (filtered_programs : List Program) :
    List Program :=
  match budget_range with
  | some br =>
      match pyParseBudgetRange br with
      | some (mn, mx) =>
          let f := filtered_programs.filter fun program =>
            match program.fees with
            | some fees => decide (mn ≤ fees ∧ fees ≤ mx)
            | none => false
          if f ≠ [] then f else filtered_programs
      | none => filtered_programs
  | none => filtered_programs

/-- The full chat program filter (lines 288-366): location stage, field
stage, budget stage, then truncation to at most 50 programs. -/
def chatFilterPrograms (student : ChatStudent) (all_programs : List Program) :
    List Program :=
  let filtered := chatLocationStage student.preferred_location all_programs
  let filtered := chatFieldStage student.field_of_study filtered
  let filtered := chatBudgetStage student.budget_range filtered
  if filtered.length > 50 then filtered.take 50 else filtered

/-- Location pre-filter of `GroqService.generate_course_recommendations`
(lines 146-164): keep programs whose location matches any preferred
location as a case-insensitive substring in either direction, falling
back to the full list when none match.  A missing location key defaults
to the empty string (`program.get("location", "")`). -/
def recLocationFilter (preferred_locations : List String) (available_programs : List Program) :
    List Program :=
  if preferred_locations ≠ [] then
    let f := available_programs.filter fun program =>
      let pl := pyLower (program.location.getD "")
      preferred_locations.any fun location =>
        pyInStr (pyLower location) pl || pyInStr pl (pyLower location)
    if f = [] then available_programs else f
  else available_programs

/-! ## JSON extraction of the LLM gateway
(`GroqService.extract_student_details` lines 91-110 and
`GroqService.generate_course_recommendations` lines 253-274)

The response text is a list of characters.  The JSON decoder
(`json.loads`, external library) is abstracted as a function
`loads : List Char → Option J` returning `none` exactly where
`json.loads` raises `JSONDecodeError`. -/

/-- Index of the first occurrence of `c`, or `none`. -/
def pyFindAux (c : Char) : List Char → Option Nat
  | [] => none
  | x :: xs => if x = c then some 0 else (pyFindAux c xs).map (· + 1)

/-- Model of Python `s.find(c)`: index of the first occurrence, `-1` if absent. -/
def pyFind (c : Char) (s : List Char) : Int :=
  match pyFindAux c s with
  | some i => (i : Int)
  | none => -1

/-- Index of the last occurrence of `c`, or `none`. -/
def pyRfindAux (c : Char) : List Char → Option Nat
  | [] => none
  | x :: xs =>
      match pyRfindAux c xs with
      | some i => some (i + 1)
      | none => if x = c then some 0 else none

/-- Model of Python `s.rfind(c)`: index of the last occurrence, `-1` if absent. -/
def pyRfind (c : Char) (s : List Char) : Int :=
  match pyRfindAux c s with
  | some i => (i : Int)
  | none => -1

/-- Model of Python `s[a:b]` for `0 ≤ a` and `0 ≤ b`. -/
def pySlice (s : List Char) (a b : Nat) : List Char :=
  (s.take b).drop a

/-- Result of the gateway's JSON extraction: either decoded data, or the
structured failure dict (`"error": "Failed to parse ..."` together with
`"raw_output": content`, the raw response text). -/
inductive ExtractResult (J : Type) where
  | ok (data : J)
  | parseError (raw_output : List Char)
  deriving DecidableEq, Repr

/-- The extract-JSON-substring heuristic (lines 94-110): take the span
from the first `{` to the last `}` when both markers are found, else the
entire text, and decode it; a decoding failure becomes a structured
failure carrying the raw text. -/
def extractJson {J : Type} (loads : List Char → Option J) (content : List Char) :
    ExtractResult J :=
  let json_start : Int := pyFind '{' content
  let json_end : Int := pyRfind '}' content + 1
  let json_content : List Char :=
    if json_start ≥ 0 ∧ json_end > 0 then pySlice content json_start.toNat json_end.toNat
    else content
  match loads json_content with
  | some data => .ok data
  | none => .parseError content

/-- Model of `json.loads` restricted to decimal-integer documents (an
input like `"42"`, which the real decoder accepts: a JSON document need
not be an object).  Returns `none` on anything that is not an optionally
signed run of digits. -/
def loadsIntDoc (s : List Char) : Option Int :=
  let (sign, digits) :=
    match s with
    | '-' :: rest => ((-1 : Int), rest)
    | _ => ((1 : Int), s)
  if digits ≠ [] ∧ digits.all Char.isDigit then
    some (sign * digits.foldl (fun acc c => acc * 10 + ((c.toNat : Int) - ('0'.toNat : Int))) (0 : Int))
  else none

/-! ## Prompt assembly
(`GroqService.chat_with_student` lines 368-423 and
`OpenAIAgentService.chat_with_student` lines 283-305)

The chat prompt is one system-role f-string; we model it as a structure
holding each interpolated component in the order it is rendered. -/

/-- One conversation message (app/schemas/student.py `ConversationMessage`):
role, content and a timestamp (opaque `Nat`). -/
structure Msg where
  role : String
  content : String
  timestamp : Nat
  deriving DecidableEq, Repr

/-- The components interpolated into the groq chat prompt, in rendering
order.  `conversation_history` is the list serialised verbatim by
`json.dumps(conversation_history, indent=2)` at line 418. -/
structure GroqPrompt where
  student_info : List (String × String)
  programs_data : List Program
  conversation_history : List Msg
  student_message : String
  deriving DecidableEq, Repr

/-- Prompt assembly of the plain-chat variant (lines 368-423): the
filtered programs and the entire given conversation history are rendered
into the system message. -/
def groqAssemblePrompt (student_info : List (String × String))
    (filtered_programs : List Program) (conversation_history : List Msg)
    (message : String) : GroqPrompt :=
  { student_info := student_info
    programs_data := filtered_programs
    conversation_history := conversation_history
    student_message := message }

/-- History trimming of the agent-based variant (line 295):
`history[-3:] if len(history) > 0 else []` — the last three messages. -/
def agentRecentHistory (history : List Msg) : List Msg :=
  if history.length > 0 then history.drop (history.length - 3) else []

/-! ## Student records, partial update and the conversation log
(app/schemas/student.py, app/models/student.py)

Datetime fields are opaque `Nat`s; the ISO-string conversions performed
before persisting are serialisation of those opaque values and are not
modelled. -/

/-- `AcademicBackground` (schemas/student.py lines 33-40). -/
structure AcademicBackground where
  current_education : String
  subjects : List String
  grades : String
  institution : Option String
  year_of_completion : Option Nat
  achievements : Option (List String)
  deriving DecidableEq, Repr

/-- `ExamScores` (schemas/student.py lines 5-10). -/
structure ExamScore where
  exam_name : String
  score : String
  date_taken : Option Nat
  validity_period : Option Nat
  deriving DecidableEq, Repr

/-- `AdditionalPreferences` (schemas/student.py lines 12-20). -/
structure AdditionalPreferences where
  study_mode : Option String
  budget_range : Option String
  duration_preference : Option String
  start_date_preference : Option Nat
  special_requirements : Option (List String)
  career_goals : Option (List String)
  preferred_languages : Option (List String)
  deriving DecidableEq, Repr

/-- `ConversationHistory` (schemas/student.py lines 28-31). -/
structure ConvHistory where
  messages : List Msg
  last_updated : Nat
  deriving DecidableEq, Repr

/-- A persisted student row (schemas/student.py `StudentBase`, lines 42-51). -/
structure StudentRec where
  name : String
  email : Option String
  academic_background : AcademicBackground
  preferred_location : String
  field_of_study : String
  exam_scores : List ExamScore
  additional_preferences : AdditionalPreferences
  conversation_history : ConvHistory
  deriving DecidableEq, Repr

/-- `StudentUpdate` (schemas/student.py lines 66-74): every field is
optional, and there is no `conversation_history` field. -/
structure StudentUpdate where
  name : Option String
  email : Option String
  academic_background : Option AcademicBackground
  preferred_location : Option String
  field_of_study : Option String
  exam_scores : Option (List ExamScore)
  additional_preferences : Option AdditionalPreferences
  deriving DecidableEq, Repr

/-- Effect on one row of `StudentModel.update` (models/student.py lines
71-97): only the non-`None` fields of the update are sent to the
database, each replacing the stored column. -/
def applyStudentUpdate (u : StudentUpdate) (s : StudentRec) : StudentRec :=
  { s with
    name := u.name.getD s.name
    email := match u.email with | some e => some e | none => s.email
    academic_background := u.academic_background.getD s.academic_background
    preferred_location := u.preferred_location.getD s.preferred_location
    field_of_study := u.field_of_study.getD s.field_of_study
    exam_scores := u.exam_scores.getD s.exam_scores
    additional_preferences := u.additional_preferences.getD s.additional_preferences }

/-- The students table: rows keyed by id (duplicates not assumed absent;
`select ... eq id` returns the matching rows and the model reads the
first, as `get_by_id` does with `response.data[0]`). -/
abbrev StudentStore := List (String × StudentRec)

/-- `StudentModel.get_by_id` (models/student.py lines 59-68). -/
def getById (store : StudentStore) (student_id : String) : Option StudentRec :=
  (store.find? fun row => row.1 == student_id).map Prod.snd

/-- `table.update({...}).eq("id", student_id)`: replace the
conversation-history column of every row whose id matches. -/
def storeSetConvHistory (store : StudentStore) (student_id : String)
    (ch : ConvHistory) : StudentStore :=
  store.map fun row =>
    if row.1 == student_id then (row.1, { row.2 with conversation_history := ch }) else row

/-- Appending one `{role, content, timestamp}` entry to a conversation
history (the `conversation_history["messages"].append(...)` step). -/
def appendMsg (ch : ConvHistory) (role content : String) (timestamp : Nat) : ConvHistory :=
  { ch with messages := ch.messages ++
      [{ role := role, content := content, timestamp := timestamp }] }

/-- `StudentModel.add_conversation_message` (models/student.py lines
100-130): fetch the student, append a `{role, content, timestamp}`
message to its conversation history, and write the history back.
Returns the updated row (or `none` when the student is absent) together
with the updated store. -/
def addConversationMessage (store : StudentStore) (student_id role content : String)
    (timestamp : Nat) : Option StudentRec × StudentStore :=
  match getById store student_id with
  | none => (none, store)
  | some s =>
      let ch := appendMsg s.conversation_history role content timestamp
      (some { s with conversation_history := ch }, storeSetConvHistory store student_id ch)

/-! ## The conversation orchestrator
(`handle_student_conversation`, app/routers/student.py lines 216-295)

The LLM gateway (`GroqService.chat_with_student`, whose network call and
program fetch are external effects) is passed in as a function from the
student record, the message and the history to its result dict. -/

/-- Result dict of `GroqService.chat_with_student` (lines 446-463):
either `{"success": True, "response": ...}` or
`{"success": False, "error": ...}`; the router's `"error" in
chat_response` test distinguishes exactly these two shapes. -/
inductive ChatResult where
  | ok (response : String)
  | err (error : String)
  deriving DecidableEq, Repr

/-- The gateway's classification of the HTTP response (groq_service.py
lines 446-457): status 200 yields the first choice's content, anything
else a failure string carrying the status code and body text. -/
def groqChatOutcome (status_code : Nat) (content error_text : String) : ChatResult :=
  if status_code = 200 then .ok content
  else .err ("API request failed with status code " ++ toString status_code ++ ": " ++ error_text)

/-- Body returned by the conversation endpoint (200 responses). -/
structure ConvPayload where
  success : Bool
  message : String
  response : Option String
  error : Option String
  deriving DecidableEq, Repr

/-- Outcome of one call of the conversation endpoint: an HTTP error
response (`HTTPException`) or a 200 response with a payload. -/
inductive ConvOutcome where
  | httpError (status_code : Nat) (detail : String)
  | ok (payload : ConvPayload)
  deriving DecidableEq, Repr

/-- The conversation orchestrator (routers/student.py lines 216-295):
look the student up (absent → 404), append the inbound text as a `user`
turn, call the gateway on the pre-append history, then either record the
failure as a `system` turn and answer `success:false`, or append the
response as an `assistant` turn and answer `success:true`.  `t1`/`t2`
are the clock values of the two appends. -/
def handleStudentConversation (store : StudentStore) (student_id text : String)
    (gateway : StudentRec → String → List Msg → ChatResult) (t1 t2 : Nat) :
    ConvOutcome × StudentStore :=
  match getById store student_id with
  | none => (.httpError 404 ("Student with ID " ++ student_id ++ " not found"), store)
  | some existing =>
      let store1 := (addConversationMessage store student_id "user" text t1).2
      let history := existing.conversation_history.messages
      match gateway existing text history with
      | .err e =>
          let store2 := (addConversationMessage store1 student_id "system"
            ("Error in chat: " ++ e) t2).2
          (.ok { success := false, message := "Failed to generate chat response",
                 response := none, error := some e }, store2)
      | .ok resp =>
          let store2 := (addConversationMessage store1 student_id "assistant" resp t2).2
          (.ok { success := true, message := "Successfully generated chat response",
                 response := some resp, error := none }, store2)

/-! ## The agent's `fetch_programs` tool
(app/services/openai_agent_service.py lines 28-194) -/

/-- A row of the programs table as read by `fetch_programs`; `none`
models a missing/NULL column.  The budget column is numeric (`Int`; the
tool's float argument is truncated by `int(budget)`, modelled as taking
the integer directly). -/
structure ProgramRow where
  id : Option String
  program_title : Option String
  institution : Option String
  program_overview : Option String
  location : Option String
  program_type : Option String
  field_of_study : Option String
  budget : Option Int
  duration : Option String
  curriculum : Option String
  requirements : Option String
  deriving DecidableEq, Repr

/-- `valid_fields` (lines 65-76).  The Python value is a `set`; only
membership is used, so a list is a faithful model. -/
def validFields : List String :=
  ["Computer Science", "Business Administration", "Engineering", "Data Science",
   "Medicine", "Law", "Psychology", "Environmental Science",
   "International Relations", "Architecture"]

/-- `valid_locations` (lines 78-89). -/
def validLocations : List String :=
  ["United States", "United Kingdom", "Canada", "Australia", "Germany",
   "New Zealand", "Singapore", "Ireland", "Netherlands", "Japan"]

/-- `valid_program_types` (line 91). -/
def validProgramTypes : List String := ["undergraduate", "postgraduate", "phd"]

/-- Result dict of `fetch_programs`.  `programs`/`message`/`error` are
`none` when the corresponding key is absent from the returned dict. -/
structure FetchResult where
  success : Bool
  programs : Option (List ProgramRow)
  message : Option String
  error : Option String
  deriving DecidableEq, Repr

/-- Join with `", "`, modelling `", ".join(...)` (the Python iterable is
a set with unspecified order; this model fixes the written order, which
no claim depends on). -/
def commaJoin (l : List String) : String :=
  String.intercalate ", " l

/-- The `fetch_programs` tool (lines 28-194), over an explicit database
table `db` and a flag `client_ok` modelling `supabase_client` being
initialised.  Returns the result dict together with a flag telling
whether the database query was executed.  The formatted program dicts
copy exactly the `ProgramRow` columns, so formatting is the identity in
this model.  The multiline no-match message is modelled with its
interpolated values joined in order (exact whitespace of the f-string is
not reproduced). -/
def fetchPrograms (db : List ProgramRow) (client_ok : Bool) (field_of_study : String)
    (location : Option String) (budget : Option Int) (program_type : Option String) :
    FetchResult × Bool :=
  if ¬ client_ok then
    ({ success := false, programs := none, message := none,
       error := some "Database connection error. Please try again later." }, false)
  else if ¬ validFields.contains field_of_study then
    ({ success := false, programs := none, message := none,
       error := some ("Invalid field of study. Must be one of: " ++ commaJoin validFields) },
     false)
  else if (match location with
           | some l => l != "" && !(validLocations.contains l)
           | none => false : Bool) then
    ({ success := false, programs := none, message := none,
       error := some ("Invalid location. Must be one of: " ++ commaJoin validLocations) },
     false)
  else if (match program_type with
           | some p => p != "" && !(validProgramTypes.contains (pyLower p))
           | none => false : Bool) then
    ({ success := false, programs := none, message := none,
       error := some ("Invalid program type. Must be one of: " ++ commaJoin validProgramTypes) },
     false)
  else
    let rows := db.filter fun r => r.field_of_study == some field_of_study
    let rows := match location with
      | some l => if l ≠ "" then rows.filter (fun r => r.location == some l) else rows
      | none => rows
    let rows := match program_type with
      | some p => if p ≠ "" then rows.filter (fun r => r.program_type == some (pyLower p)) else rows
      | none => rows
    let rows := match budget with
      | some b => rows.filter fun r =>
          match r.budget with
          | some x => decide (x ≤ b)
          | none => false
      | none => rows
    if rows = [] then
      ({ success := true, programs := some [], message := some
           ("No programs found matching your criteria: - Field of Study: " ++ field_of_study ++
            " - Location: " ++ (match location with | some l => if l ≠ "" then l else "Any" | none => "Any") ++
            " - Program Type: " ++ (match program_type with | some p => if p ≠ "" then p else "Any" | none => "Any") ++
            " - Budget: " ++ (match budget with | some b => if b ≠ 0 then toString b else "Any" | none => "Any") ++
            " Consider adjusting your preferences or try different criteria."),
         error := none }, true)
    else
      ({ success := true, programs := some rows,
         message := some ("Found " ++ toString rows.length ++ " matching programs."),
         error := none }, true)

/-! ## Generic facts about the soft filter stages -/

theorem chatLocationStage_sublist (prefs : List String) (ps : List Program) :
    (chatLocationStage prefs ps).Sublist ps := by
  by_cases hp : prefs = [] <;>
    simp only [chatLocationStage, hp, ne_eq, not_true_eq_false, if_false,
      not_false_eq_true, if_true]
  · exact List.Sublist.refl ps
  · split
    · exact List.Sublist.refl ps
    · exact List.filter_sublist ps

theorem chatLocationStage_ne_nil (prefs : List String) (ps : List Program)
    (h : ps ≠ []) : chatLocationStage prefs ps ≠ [] := by
  by_cases hp : prefs = [] <;>
    simp only [chatLocationStage, hp, ne_eq, not_true_eq_false, if_false,
      not_false_eq_true, if_true]
  · exact h
  · split
    · exact h
    · assumption

theorem chatFieldStage_sublist (fos : String) (ps : List Program) :
    (chatFieldStage fos ps).Sublist ps := by
  by_cases hf : fos = "" <;>
    simp only [chatFieldStage, hf, ne_eq, not_true_eq_false, if_false,
      not_false_eq_true, if_true]
  · exact List.Sublist.refl ps
  · split
    · exact List.filter_sublist ps
    · exact List.Sublist.refl ps

theorem chatFieldStage_ne_nil (fos : String) (ps : List Program)
    (h : ps ≠ []) : chatFieldStage fos ps ≠ [] := by
  by_cases hf : fos = "" <;>
    simp only [chatFieldStage, hf, ne_eq, not_true_eq_false, if_false,
      not_false_eq_true, if_true]
  · exact h
  · split
    · assumption
    · exact h

theorem chatBudgetStage_sublist (br : Option String) (ps : List Program) :
    (chatBudgetStage br ps).Sublist ps := by
  rw [chatBudgetStage.eq_def]
  split
  · split
    · dsimp only
      split
      · exact List.filter_sublist ps
      · exact List.Sublist.refl ps
    · exact List.Sublist.refl ps
  · exact List.Sublist.refl ps

theorem chatBudgetStage_ne_nil (br : Option String) (ps : List Program)
    (h : ps ≠ []) : chatBudgetStage br ps ≠ [] := by
  rw [chatBudgetStage.eq_def]
  split
  · split
    · dsimp only
      split
      · assumption
      · exact h
    · exact h
  · exact h

/-- C1: for every list of programs and every filter criteria, the chat
Program Filter's output (location, field-of-study and budget stages
followed by the cap of 50) is an order-preserving subsequence — hence a
subset preserving relative order — of the input list, and is non-empty
whenever the input list is non-empty. -/
theorem chatFilterPrograms_sublist_subset_nonempty (student : ChatStudent)
    (programs : List Program) :
    (chatFilterPrograms student programs).Sublist programs ∧
    chatFilterPrograms student programs ⊆ programs ∧
    (programs ≠ [] → chatFilterPrograms student programs ≠ []) := by
  have h1 := chatLocationStage_sublist student.preferred_location programs
  have h2 := chatFieldStage_sublist student.field_of_study
    (chatLocationStage student.preferred_location programs)
  have h3 := chatBudgetStage_sublist student.budget_range
    (chatFieldStage student.field_of_study
      (chatLocationStage student.preferred_location programs))
  have hchain : (chatBudgetStage student.budget_range
      (chatFieldStage student.field_of_study
        (chatLocationStage student.preferred_location programs))).Sublist programs :=
    (h3.trans h2).trans h1
  have hsub : (chatFilterPrograms student programs).Sublist programs := by
    rw [chatFilterPrograms]
    split
    · exact (List.take_sublist 50 _).trans hchain
    · exact hchain
  refine ⟨hsub, hsub.subset, fun hne => ?_⟩
  have hne3 : chatBudgetStage student.budget_range
      (chatFieldStage student.field_of_study
        (chatLocationStage student.preferred_location programs)) ≠ [] :=
    chatBudgetStage_ne_nil _ _ (chatFieldStage_ne_nil _ _ (chatLocationStage_ne_nil _ _ hne))
  rw [chatFilterPrograms]
  split
  · intro htake
    rcases List.take_eq_nil_iff.mp htake with h50 | hnil
    · exact absurd h50 (by decide)
    · exact hne3 hnil
  · exact hne3

/-- Witness for C1 at a concrete input: a singleton program list with a
student preferring "Canada" yields a non-empty output. -/
theorem chatFilterPrograms_sublist_subset_nonempty_witness :
    chatFilterPrograms
      { preferred_location := ["Canada"], field_of_study := "", budget_range := none }
      [{ location := some "Canada", program_title := some "CS", fees := some 1000 }] ≠ [] :=
  (chatFilterPrograms_sublist_subset_nonempty
    { preferred_location := ["Canada"], field_of_study := "", budget_range := none }
    [{ location := some "Canada", program_title := some "CS", fees := some 1000 }]).2.2
    (by decide)

/-! ## C2: semantics of the location stages -/

theorem listIsInfix_iff (a b : List Char) : listIsInfix a b = true ↔ a <:+: b := by
  induction b with
  | nil => simp [listIsInfix, List.isEmpty_iff, List.infix_nil]
  | cons c rest ih =>
      rw [listIsInfix]
      rw [Bool.or_eq_true, List.isPrefixOf_iff_prefix, ih, List.infix_cons_iff]

theorem pyInStr_iff (a b : String) : pyInStr a b = true ↔ a.toList <:+: b.toList := by
  rw [pyInStr, listIsInfix_iff]

theorem contains_map_pyLower (prefs : List String) (x : String) :
    (prefs.map pyLower).contains x = prefs.any fun l => x == pyLower l := by
  induction prefs with
  | nil => rfl
  | cons p rest ih =>
      simp only [List.map_cons, List.any_cons, ← ih]
      have hb : ∀ a b : String, (a == b) = decide (a = b) := fun _ _ => rfl
      simp [hb]

/-- Case-insensitive whole-string location match, as the chat location
stage tests it (a Boolean restatement of `location.lower() in
preferred_locations`, written independently of the filter's lambda). -/
def locEqMatchB (prefs : List String) (program : Program) : Bool :=
  match program.location with
  | some loc => prefs.any fun l => pyLower loc == pyLower l
  | none => false

/-- Case-insensitive substring-either-direction location match, as the
recommendations pre-filter tests it. -/
def recLocMatchB (preferred_locations : List String) (program : Program) : Bool :=
  preferred_locations.any fun location =>
    pyInStr (pyLower location) (pyLower (program.location.getD "")) ||
    pyInStr (pyLower (program.location.getD "")) (pyLower location)

def progToronto : Program :=
  { location := some "Toronto, Canada", program_title := some "Data Science", fees := some 12000 }

def progGermanyLaw : Program :=
  { location := some "Germany", program_title := some "Law", fees := some 9000 }

/-- C2 counterexample: with requested location "Canada" and programs
located "Toronto, Canada" and "Germany", exactly the first program
matches "Canada" case-insensitively as a substring in either direction
(so the claim predicts the location stage keeps exactly that program),
yet the chat filter's location stage keeps both programs: its match is
exact case-insensitive equality on the whole location string, the
substring match nowhere applies, and the empty exact-match set triggers
the discard-the-filter fallback. -/
theorem chatLocationStage_substring_claim_false :
    [progToronto, progGermanyLaw].filter (recLocMatchB ["Canada"]) = [progToronto] ∧
    chatLocationStage ["Canada"] [progToronto, progGermanyLaw] =
      [progToronto, progGermanyLaw] ∧
    chatLocationStage ["Canada"] [progToronto, progGermanyLaw] ≠ [progToronto] := by
  refine ⟨by decide, by decide, by decide⟩

/-- C2 (amended): for every non-empty list of requested locations, the
chat filter's location stage keeps exactly the programs whose location
case-insensitively EQUALS (whole string, not substring) at least one
requested location, discarding the filter and keeping the full input set
when that set is empty; substring-in-either-direction matching with the
same fallback is what the separate recommendations pre-filter
(`generate_course_recommendations`) performs. -/
theorem chatLocationStage_exact_eq_and_rec_substring (prefs : List String)
    (ps : List Program) (hp : prefs ≠ []) :
    (∀ program : Program, locEqMatchB prefs program = true ↔
        ∃ loc, program.location = some loc ∧ ∃ l ∈ prefs, pyLower loc = pyLower l) ∧
    chatLocationStage prefs ps =
      (if ps.filter (locEqMatchB prefs) = [] then ps else ps.filter (locEqMatchB prefs)) ∧
    (∀ program : Program, recLocMatchB prefs program = true ↔
        ∃ l ∈ prefs,
          (pyLower l).toList <:+: (pyLower (program.location.getD "")).toList ∨
          (pyLower (program.location.getD "")).toList <:+: (pyLower l).toList) ∧
    recLocationFilter prefs ps =
      (if ps.filter (recLocMatchB prefs) = [] then ps else ps.filter (recLocMatchB prefs)) := by
  refine ⟨?_, ?_, ?_, ?_⟩
  · intro program
    rw [locEqMatchB]
    cases hl : program.location with
    | none => simp
    | some loc =>
        have hb : ∀ a b : String, (a == b) = decide (a = b) := fun _ _ => rfl
        simp [List.any_eq_true, hb]
  · have hfil : ps.filter (fun program =>
        match program.location with
        | some loc => (prefs.map pyLower).contains (pyLower loc)
        | none => false) = ps.filter (locEqMatchB prefs) := by
      refine List.filter_congr fun program _ => ?_
      cases hl : program.location with
      | none => simp only [locEqMatchB, hl]
      | some loc =>
          simp only [locEqMatchB, hl]
          exact contains_map_pyLower prefs (pyLower loc)
    simp only [chatLocationStage, hp, ne_eq, not_false_eq_true, if_true]
    rw [hfil]
  · intro program
    rw [recLocMatchB]
    simp [List.any_eq_true, pyInStr_iff, Bool.or_eq_true]
  · simp only [recLocationFilter, hp, ne_eq, not_false_eq_true, if_true]
    rfl

/-- Witness for the amended C2 at a concrete input. -/
theorem chatLocationStage_exact_eq_and_rec_substring_witness :
    chatLocationStage ["Canada"] [progToronto, progGermanyLaw] =
      (if [progToronto, progGermanyLaw].filter (locEqMatchB ["Canada"]) = [] then
        [progToronto, progGermanyLaw]
       else [progToronto, progGermanyLaw].filter (locEqMatchB ["Canada"])) :=
  (chatLocationStage_exact_eq_and_rec_substring ["Canada"] [progToronto, progGermanyLaw]
    (by decide)).2.1

/-! ## C3: semantics of the budget stage -/

/-- Fees within `[mn, mx]`, as the budget stage tests it. -/
def feesInRangeB (mn mx : Int) (program : Program) : Bool :=
  match program.fees with
  | some fees => decide (mn ≤ fees ∧ fees ≤ mx)
  | none => false

/-- Modelled from the spec: "If `criteria.budget` is present, keep
programs whose cost is ≤ budget; same fallback-on-empty rule" — the
budget stage as the claim describes it, with a single budget ceiling. -/
def specBudgetStage (budget : Int) (programs : List Program) : List Program :=
  let f := programs.filter fun program =>
    match program.fees with
    | some fees => decide (fees ≤ budget)
    | none => false
  if f = [] then programs else f

def progFees500 : Program :=
  { location := some "Canada", program_title := some "History", fees := some 500 }

def progFees1500 : Program :=
  { location := some "Canada", program_title := some "Physics", fees := some 1500 }

/-- C3 counterexample: the code's budget stage is driven by
`additional_preferences.budget_range = "min-max"` and keeps programs
whose fees lie WITHIN the range, not all programs with cost ≤ budget.
With programs costing 500 and 1500 and `budget_range = "1000-2000"`
(budget ceiling 2000), the claim's ≤-semantics keeps both programs, but
the code keeps only the one costing 1500: the program costing 500 is
cheaper than the budget yet discarded because it lies below the range
minimum. -/
theorem chatBudgetStage_leq_claim_false :
    specBudgetStage 2000 [progFees500, progFees1500] = [progFees500, progFees1500] ∧
    chatBudgetStage (some "1000-2000") [progFees500, progFees1500] = [progFees1500] ∧
    chatBudgetStage (some "1000-2000") [progFees500, progFees1500] ≠
      specBudgetStage 2000 [progFees500, progFees1500] := by
  refine ⟨by decide, by decide, by decide⟩

def progCanada15000 : Program :=
  { location := some "Canada", program_title := some "Computer Science", fees := some 15000 }

def progGermany30000 : Program :=
  { location := some "Germany", program_title := some "Mechanical Engineering", fees := some 30000 }

/-- C3 (amended): when `additional_preferences.budget_range` parses as
"min-max", the budget stage keeps exactly the programs whose numeric
fees lie between min and max inclusive, falling back to the pre-stage
set when that yields an empty result; with two programs costing 15000
(location Canada) and 30000 (location Germany), budget range "0-20000"
and preferred location Canada, the filter output is exactly the first
program. -/
theorem chatBudgetStage_range_and_scenario (ps : List Program) (br : String)
    (mn mx : Int) (h : pyParseBudgetRange br = some (mn, mx)) :
    (∀ program : Program, feesInRangeB mn mx program = true ↔
        ∃ fees, program.fees = some fees ∧ mn ≤ fees ∧ fees ≤ mx) ∧
    chatBudgetStage (some br) ps =
      (if ps.filter (feesInRangeB mn mx) = [] then ps else ps.filter (feesInRangeB mn mx)) ∧
    chatFilterPrograms
      { preferred_location := ["Canada"], field_of_study := "", budget_range := some "0-20000" }
      [progCanada15000, progGermany30000] = [progCanada15000] := by
  refine ⟨?_, ?_, by decide⟩
  · intro program
    rw [feesInRangeB]
    cases hf : program.fees with
    | none => simp
    | some fees => simp
  · rw [chatBudgetStage.eq_def]
    dsimp only
    rw [h]
    dsimp only
    have hfil : ps.filter (fun program =>
        match program.fees with
        | some fees => decide (mn ≤ fees ∧ fees ≤ mx)
        | none => false) = ps.filter (feesInRangeB mn mx) := by
      refine List.filter_congr fun program _ => ?_
      cases hf : program.fees with
      | none => simp only [feesInRangeB, hf]
      | some fees => simp only [feesInRangeB, hf]
    rw [hfil]
    by_cases hc : ps.filter (feesInRangeB mn mx) = [] <;> simp [hc]

/-- Witness for the amended C3 at a concrete input. -/
theorem chatBudgetStage_range_and_scenario_witness :
    chatBudgetStage (some "1000-2000") [progFees500, progFees1500] =
      (if [progFees500, progFees1500].filter (feesInRangeB 1000 2000) = [] then
        [progFees500, progFees1500]
       else [progFees500, progFees1500].filter (feesInRangeB 1000 2000)) :=
  (chatBudgetStage_range_and_scenario [progFees500, progFees1500] "1000-2000" 1000 2000
    (by decide)).2.1

/-! ## C4 and C7: the extract-JSON-substring heuristic -/

theorem pyFindAux_eq_some (c : Char) (l : List Char) (i : Nat)
    (hi : l.get? i = some c) (hfirst : ∀ k < i, l.get? k ≠ some c) :
    pyFindAux c l = some i := by
  induction l generalizing i with
  | nil => simp at hi
  | cons x xs ih =>
      cases i with
      | zero =>
          rw [List.get?_cons_zero] at hi
          injection hi with hx
          simp [pyFindAux, hx]
      | succ i =>
          have hx : x ≠ c := by
            intro h
            exact hfirst 0 (Nat.succ_pos i) (by simp [h])
          rw [pyFindAux, if_neg hx]
          have := ih i (by rwa [List.get?_cons_succ] at hi)
            (fun k hk => by
              have := hfirst (k + 1) (Nat.succ_lt_succ hk)
              rwa [List.get?_cons_succ] at this)
          rw [this, Option.map_some']

theorem pyFindAux_eq_none (c : Char) (l : List Char) (h : c ∉ l) :
    pyFindAux c l = none := by
  induction l with
  | nil => rfl
  | cons x xs ih =>
      have hx : x ≠ c := fun hx => h (hx ▸ List.mem_cons_self x xs)
      rw [pyFindAux, if_neg hx, ih (fun hm => h (List.mem_cons_of_mem x hm))]
      rfl

theorem pyRfindAux_eq_none (c : Char) (l : List Char) (h : ∀ k, l.get? k ≠ some c) :
    pyRfindAux c l = none := by
  induction l with
  | nil => rfl
  | cons x xs ih =>
      have hx : x ≠ c := by
        intro hx
        exact h 0 (by simp [hx])
      rw [pyRfindAux, ih (fun k => by
        have := h (k + 1)
        rwa [List.get?_cons_succ] at this)]
      simp [hx]

theorem pyRfindAux_eq_some (c : Char) (l : List Char) (j : Nat)
    (hj : l.get? j = some c) (hlast : ∀ k, j < k → l.get? k ≠ some c) :
    pyRfindAux c l = some j := by
  induction l generalizing j with
  | nil => simp at hj
  | cons x xs ih =>
      cases j with
      | zero =>
          rw [List.get?_cons_zero] at hj
          injection hj with hx
          have hnone : pyRfindAux c xs = none := by
            refine pyRfindAux_eq_none c xs fun k => ?_
            have := hlast (k + 1) (Nat.succ_pos k)
            rwa [List.get?_cons_succ] at this
          rw [pyRfindAux, hnone]
          simp [hx]
      | succ j =>
          have hs : pyRfindAux c xs = some j := by
            refine ih j (by rwa [List.get?_cons_succ] at hj) fun k hk => ?_
            have := hlast (k + 1) (Nat.succ_lt_succ hk)
            rwa [List.get?_cons_succ] at this
          rw [pyRfindAux, hs]

/-- C4: for every response text with a first `{` at index `i` and a last
`}` at index `j`, where some `{` is followed by some `}` (equivalently
`i < j`), the gateway's JSON extraction decodes exactly the span from
the first `{` to the last `}` (indices `i` to `j` inclusive); in
particular for text containing exactly one `{...}` span surrounded by
prose the result equals decoding that span directly, and when the span
fails to decode the result is the structured failure carrying the raw
text. -/
theorem extractJson_first_last_span {J : Type} (loads : List Char → Option J)
    (content : List Char) (i j : Nat)
    (hi : content.get? i = some '{')
    (hifirst : ∀ k < i, content.get? k ≠ some '{')
    (hj : content.get? j = some '}')
    (hjlast : ∀ k < content.length, j < k → content.get? k ≠ some '}')
    (hij : i < j) :
    extractJson loads content =
      (match loads ((content.take (j + 1)).drop i) with
       | some data => ExtractResult.ok data
       | none => ExtractResult.parseError content) := by
  have hjlast' : ∀ k, j < k → content.get? k ≠ some '}' := by
    intro k hk
    by_cases hlen : k < content.length
    · exact hjlast k hlen hk
    · rw [List.get?_eq_none.mpr (le_of_not_lt hlen)]
      simp
  have hfind : pyFind '{' content = (i : Int) := by
    rw [pyFind, pyFindAux_eq_some '{' content i hi hifirst]
  have hrfind : pyRfind '}' content = (j : Int) := by
    rw [pyRfind, pyRfindAux_eq_some '}' content j hj hjlast']
  have _ := hij
  rw [extractJson]
  rw [hfind, hrfind]
  rw [if_pos ⟨by positivity, by positivity⟩]
  rw [show ((j : Int) + 1) = ((j + 1 : Nat) : Int) by push_cast; ring]
  rw [Int.toNat_natCast, Int.toNat_natCast]
  rfl

/-- Witness for C4: text `ab{x}cd` with a decoder accepting exactly the
span `{x}` (first `{` at index 2, last `}` at index 4). -/
theorem extractJson_first_last_span_witness :
    extractJson (fun s => if s = "{x}".toList then some 0 else none) "ab{x}cd".toList =
      (match (fun s => if s = "{x}".toList then some 0 else none)
          (("ab{x}cd".toList.take 5).drop 2) with
       | some data => ExtractResult.ok data
       | none => ExtractResult.parseError "ab{x}cd".toList) :=
  extractJson_first_last_span (fun s => if s = "{x}".toList then some 0 else none)
    "ab{x}cd".toList 2 4 (by decide) (by decide) (by decide) (by decide) (by decide)

/-- C7 counterexample: the text `42` contains no `{`, yet extraction
SUCCEEDS — the code falls back to decoding the entire text
(`json.loads("42")` is the valid JSON document 42), so "extraction fails
whenever the text has no `{`" is false on the code. -/
theorem extractJson_no_brace_success :
    ('{' ∉ "42".toList) ∧
    extractJson loadsIntDoc "42".toList = ExtractResult.ok 42 := by
  refine ⟨by decide, by decide⟩

/-- C7 (amended): for every response text containing no `{`, the
gateway's JSON extraction falls back to decoding the ENTIRE text: it
returns the decoded document when the whole text is valid JSON, and the
structured `ParseError`-style failure carrying the raw text only when
the whole text fails to decode. -/
theorem extractJson_no_brace_fallback {J : Type} (loads : List Char → Option J)
    (content : List Char) (h : '{' ∉ content) :
    extractJson loads content =
      (match loads content with
       | some data => ExtractResult.ok data
       | none => ExtractResult.parseError content) := by
  have hfind : pyFind '{' content = -1 := by
    rw [pyFind, pyFindAux_eq_none '{' content h]
  rw [extractJson]
  rw [hfind]
  rw [if_neg (fun hc => absurd hc.1 (by decide))]

/-- Witness for the amended C7 at the concrete no-brace text `oops`,
which is not valid JSON, so extraction fails with the raw text. -/
theorem extractJson_no_brace_fallback_witness :
    extractJson loadsIntDoc "oops".toList =
      (match loadsIntDoc "oops".toList with
       | some data => ExtractResult.ok data
       | none => ExtractResult.parseError "oops".toList) :=
  extractJson_no_brace_fallback loadsIntDoc "oops".toList (by decide)

/-! ## C9: conversation-history trimming in the two prompt variants -/

/-- An eleven-message conversation history. -/
def history11 : List Msg :=
  (List.range 11).map fun n => { role := "user", content := "m", timestamp := n }

/-- C9 counterexample: the plain-chat variant does NOT trim the history
to the 10 most recent turns — `chat_with_student` serialises the whole
`conversation_history` list into the prompt (groq_service.py line 418),
so an eleven-turn history is rendered with all eleven turns. -/
theorem groqPrompt_renders_more_than_ten_turns :
    (groqAssemblePrompt [] [] history11 "hi").conversation_history = history11 ∧
    ¬ (groqAssemblePrompt [] [] history11 "hi").conversation_history.length ≤ 10 := by
  refine ⟨rfl, by decide⟩

/-- C9 (amended): the agent-based variant renders at most the 3 most
recent turns (`history[-3:]`, a suffix of length ≤ 3), while the
plain-chat variant renders the ENTIRE conversation history it is given,
with no cap. -/
theorem prompt_history_trimming (student_info : List (String × String))
    (programs : List Program) (history : List Msg) (message : String) :
    (agentRecentHistory history).length ≤ 3 ∧
    agentRecentHistory history <:+ history ∧
    (groqAssemblePrompt student_info programs history message).conversation_history =
      history := by
  refine ⟨?_, ?_, rfl⟩
  · rw [agentRecentHistory]
    split
    · rw [List.length_drop]
      omega
    · simp
  · rw [agentRecentHistory]
    split
    · exact List.drop_suffix _ _
    · exact List.nil_suffix

/-! ## Store lemmas for the orchestrator claims -/

theorem getById_cons (row : String × StudentRec) (rest : StudentStore) (sid : String) :
    getById (row :: rest) sid =
      if (row.1 == sid) = true then some row.2 else getById rest sid := by
  by_cases h : (row.1 == sid) = true
  · rw [if_pos h, getById,
      @List.find?_cons_of_pos _ (fun r => r.1 == sid) row rest h, Option.map_some']
  · rw [if_neg h, getById,
      @List.find?_cons_of_neg _ (fun r => r.1 == sid) row rest h]
    rfl

theorem storeSetConvHistory_cons (row : String × StudentRec) (rest : StudentStore)
    (id : String) (ch : ConvHistory) :
    storeSetConvHistory (row :: rest) id ch =
      (if (row.1 == id) = true then (row.1, { row.2 with conversation_history := ch })
       else row) :: storeSetConvHistory rest id ch := rfl

theorem getById_set (store : StudentStore) (id sid : String) (ch : ConvHistory) :
    getById (storeSetConvHistory store id ch) sid =
      (getById store sid).map
        fun s => if sid = id then { s with conversation_history := ch } else s := by
  induction store with
  | nil => rfl
  | cons row rest ih =>
      obtain ⟨k, v⟩ := row
      rw [storeSetConvHistory_cons, getById_cons, getById_cons]
      by_cases hid : (k == id) = true
      · rw [if_pos hid]
        by_cases hsid : (k == sid) = true
        · have h1 : k = id := by rwa [beq_iff_eq] at hid
          have h2 : k = sid := by rwa [beq_iff_eq] at hsid
          rw [if_pos hsid, if_pos hsid, Option.map_some']
          have hsidid : sid = id := by rw [← h2, h1]
          rw [if_pos hsidid]
        · rw [if_neg hsid, if_neg hsid]
          exact ih
      · rw [if_neg hid]
        by_cases hsid : (k == sid) = true
        · have h1 : k ≠ id := fun h => hid (beq_iff_eq.mpr h)
          have h2 : k = sid := by rwa [beq_iff_eq] at hsid
          have hsidid : sid ≠ id := fun h => h1 (by rw [h2, h])
          rw [if_pos hsid, if_pos hsid, Option.map_some', if_neg hsidid]
        · rw [if_neg hsid, if_neg hsid]
          exact ih

theorem addConversationMessage_found (store : StudentStore) (id role content : String)
    (t : Nat) (s : StudentRec) (hs : getById store id = some s) :
    addConversationMessage store id role content t =
      (some { s with conversation_history := appendMsg s.conversation_history role content t },
       storeSetConvHistory store id (appendMsg s.conversation_history role content t)) := by
  rw [addConversationMessage.eq_def, hs]

theorem addConversationMessage_not_found (store : StudentStore) (id role content : String)
    (t : Nat) (hs : getById store id = none) :
    addConversationMessage store id role content t = (none, store) := by
  rw [addConversationMessage.eq_def, hs]

/-- An append for one student id extends every student's visible
conversation log: the targeted student's log gains the new message, all
others are untouched. -/
theorem addConversationMessage_log_extends (store : StudentStore)
    (id role content : String) (t : Nat) (sid : String) (s : StudentRec)
    (hs : getById store sid = some s) :
    ∃ s', getById (addConversationMessage store id role content t).2 sid = some s' ∧
      s.conversation_history.messages <+: s'.conversation_history.messages := by
  cases ht : getById store id with
  | none =>
      rw [addConversationMessage_not_found store id role content t ht]
      exact ⟨s, hs, List.prefix_refl _⟩
  | some target =>
      rw [addConversationMessage_found store id role content t target ht]
      dsimp only
      rw [getById_set, hs, Option.map_some']
      by_cases hsid : sid = id
      · subst hsid
        rw [ht] at hs
        injection hs with hseq
        subst hseq
        refine ⟨_, rfl, ?_⟩
        rw [if_pos rfl]
        exact ⟨[{ role := role, content := content, timestamp := t }], rfl⟩
      · rw [if_neg hsid]
        exact ⟨s, rfl, List.prefix_refl _⟩

/-- A concrete student row used by witnesses. -/
def studentAlice : StudentRec :=
  { name := "Alice"
    email := some "a@x.com"
    academic_background :=
      { current_education := "High School", subjects := ["Math"], grades := "A"
        institution := none, year_of_completion := none, achievements := none }
    preferred_location := "Canada"
    field_of_study := "Computer Science"
    exam_scores := []
    additional_preferences :=
      { study_mode := none, budget_range := some "0-20000", duration_preference := none
        start_date_preference := none, special_requirements := none, career_goals := none
        preferred_languages := none }
    conversation_history := { messages := [], last_updated := 0 } }

/-- C6: a conversation request whose student id is not in the store
terminates with HTTP 404 before the filter, assembler or gateway stage
runs: for EVERY gateway function (the stage that fetches programs, runs
the filter, assembles the prompt and calls the LLM) and any clock
values, the handler returns the same 404 outcome and the store
unchanged — no turn is appended and no LLM call can influence the
result. -/
theorem conversation_not_found_short_circuit (store : StudentStore)
    (student_id text : String) (h : getById store student_id = none)
    (gateway : StudentRec → String → List Msg → ChatResult) (t1 t2 : Nat) :
    handleStudentConversation store student_id text gateway t1 t2 =
      (ConvOutcome.httpError 404 ("Student with ID " ++ student_id ++ " not found"),
       store) := by
  rw [handleStudentConversation.eq_def, h]

/-- Witness for C6: an empty store, any gateway. -/
theorem conversation_not_found_short_circuit_witness :
    handleStudentConversation [] "s1" "hello" (fun _ _ _ => ChatResult.ok "hi") 0 1 =
      (ConvOutcome.httpError 404 "Student with ID s1 not found", []) :=
  conversation_not_found_short_circuit [] "s1" "hello" rfl
    (fun _ _ _ => ChatResult.ok "hi") 0 1

/-- C5: when the gateway's HTTP status is not 200, the orchestrator
appends a `system` turn recording the error to the student's
conversation log (after the `user` turn it had already appended) and
returns a `success:false` payload carrying the error message as a
normal `ConvOutcome.ok` response — it does not raise an HTTP error. -/
theorem conversation_gateway_failure_degrades (store : StudentStore)
    (student_id text : String) (s : StudentRec)
    (hs : getById store student_id = some s)
    (status_code : Nat) (hstatus : status_code ≠ 200)
    (content error_text : String) (t1 t2 : Nat) :
    (handleStudentConversation store student_id text
        (fun _ _ _ => groqChatOutcome status_code content error_text) t1 t2).1 =
      ConvOutcome.ok
        { success := false, message := "Failed to generate chat response",
          response := none,
          error := some ("API request failed with status code " ++
            toString status_code ++ ": " ++ error_text) } ∧
    (∃ s', getById (handleStudentConversation store student_id text
        (fun _ _ _ => groqChatOutcome status_code content error_text) t1 t2).2
          student_id = some s' ∧
      s'.conversation_history.messages = s.conversation_history.messages ++
        [{ role := "user", content := text, timestamp := t1 },
         { role := "system",
           content := "Error in chat: " ++ ("API request failed with status code " ++
             toString status_code ++ ": " ++ error_text),
           timestamp := t2 }]) := by
  have hgw : groqChatOutcome status_code content error_text =
      ChatResult.err ("API request failed with status code " ++
        toString status_code ++ ": " ++ error_text) := by
    rw [groqChatOutcome, if_neg hstatus]
  have h1 := addConversationMessage_found store student_id "user" text t1 s hs
  have hg1 : getById (storeSetConvHistory store student_id
      (appendMsg s.conversation_history "user" text t1)) student_id =
      some { s with conversation_history := appendMsg s.conversation_history "user" text t1 } := by
    rw [getById_set, hs, Option.map_some', if_pos rfl]
  have h2 := addConversationMessage_found _ student_id "system"
    ("Error in chat: " ++ ("API request failed with status code " ++
      toString status_code ++ ": " ++ error_text)) t2 _ hg1
  have hrun : handleStudentConversation store student_id text
      (fun _ _ _ => groqChatOutcome status_code content error_text) t1 t2 =
      (ConvOutcome.ok
        { success := false, message := "Failed to generate chat response",
          response := none,
          error := some ("API request failed with status code " ++
            toString status_code ++ ": " ++ error_text) },
       storeSetConvHistory
         (storeSetConvHistory store student_id (appendMsg s.conversation_history "user" text t1))
         student_id
         (appendMsg (appendMsg s.conversation_history "user" text t1) "system"
           ("Error in chat: " ++ ("API request failed with status code " ++
             toString status_code ++ ": " ++ error_text)) t2)) := by
    rw [handleStudentConversation.eq_def, hs]
    dsimp only
    rw [hgw]
    dsimp only
    rw [h1]
    dsimp only
    rw [h2]
  constructor
  · rw [hrun]
  · rw [hrun]
    dsimp only
    rw [getById_set, hg1, Option.map_some', if_pos rfl]
    refine ⟨_, rfl, ?_⟩
    simp [appendMsg]

/-- Witness for C5: one student, a simulated 500 response. -/
theorem conversation_gateway_failure_degrades_witness :
    (handleStudentConversation [("s1", studentAlice)] "s1" "hello"
        (fun _ _ _ => groqChatOutcome 500 "unused" "Internal Server Error") 0 1).1 =
      ConvOutcome.ok
        { success := false, message := "Failed to generate chat response",
          response := none,
          error := some ("API request failed with status code " ++
            toString 500 ++ ": " ++ "Internal Server Error") } :=
  (conversation_gateway_failure_degrades [("s1", studentAlice)] "s1" "hello"
    studentAlice rfl 500 (by decide) "unused" "Internal Server Error" 0 1).1

/-- C8: the conversation log is append-only.  The partial profile update
(`StudentModel.update` driven by `StudentUpdate`, which has no
conversation-history field) leaves the log exactly unchanged; the
message-append operation and the conversation orchestrator only extend
it — for every student visible in the store before the operation, the
old log is a prefix of that student's log afterwards. -/
theorem conversation_log_append_only :
    (∀ (u : StudentUpdate) (s : StudentRec),
        (applyStudentUpdate u s).conversation_history.messages =
          s.conversation_history.messages) ∧
    (∀ (store : StudentStore) (id role content : String) (t : Nat) (sid : String)
        (s : StudentRec), getById store sid = some s →
        ∃ s', getById (addConversationMessage store id role content t).2 sid = some s' ∧
          s.conversation_history.messages <+: s'.conversation_history.messages) ∧
    (∀ (store : StudentStore) (id text : String)
        (gateway : StudentRec → String → List Msg → ChatResult) (t1 t2 : Nat)
        (sid : String) (s : StudentRec), getById store sid = some s →
        ∃ s', getById (handleStudentConversation store id text gateway t1 t2).2 sid =
            some s' ∧
          s.conversation_history.messages <+: s'.conversation_history.messages) := by
  refine ⟨fun u s => rfl,
    fun store id role content t sid s hs =>
      addConversationMessage_log_extends store id role content t sid s hs, ?_⟩
  intro store id text gateway t1 t2 sid s hs
  rw [handleStudentConversation.eq_def]
  cases ht : getById store id with
  | none =>
      dsimp only
      exact ⟨s, hs, List.prefix_refl _⟩
  | some existing =>
      dsimp only
      obtain ⟨s1, hg1, hp1⟩ :=
        addConversationMessage_log_extends store id "user" text t1 sid s hs
      cases hgw : gateway existing text existing.conversation_history.messages with
      | err e =>
          dsimp only
          obtain ⟨s2, hg2, hp2⟩ := addConversationMessage_log_extends _ id "system"
            ("Error in chat: " ++ e) t2 sid s1 hg1
          exact ⟨s2, hg2, hp1.trans hp2⟩
      | ok resp =>
          dsimp only
          obtain ⟨s2, hg2, hp2⟩ := addConversationMessage_log_extends _ id "assistant"
            resp t2 sid s1 hg1
          exact ⟨s2, hg2, hp1.trans hp2⟩

/-- Witness for C8: appending one message to a store with one student. -/
theorem conversation_log_append_only_witness :
    ∃ s', getById (addConversationMessage [("s1", studentAlice)] "s1" "user" "hi" 5).2
        "s1" = some s' ∧
      studentAlice.conversation_history.messages <+: s'.conversation_history.messages :=
  conversation_log_append_only.2.1 [("s1", studentAlice)] "s1" "user" "hi" 5 "s1"
    studentAlice rfl

/-- C10 counterexample: Python truthiness lets an empty-string location
bypass validation.  `location = ""` is "provided and not one of the ten
hardcoded countries", so the claim predicts a `success:false` result and
no database query; but `if location and location not in valid_locations`
skips the check for a falsy string, the query executes (flag `true`) and
the tool returns `success:true`. -/
theorem fetchPrograms_empty_location_bypasses_validation :
    (¬ validLocations.contains "" = true) ∧
    (fetchPrograms [] true "Computer Science" (some "") none none).1.success = true ∧
    (fetchPrograms [] true "Computer Science" (some "") none none).1.error = none ∧
    (fetchPrograms [] true "Computer Science" (some "") none none).2 = true := by
  refine ⟨by decide, by decide, by decide, by decide⟩

/-- C10 (amended): if `field_of_study` is not one of the ten hardcoded
field names, or `location` is provided NON-EMPTY and is not one of the
ten hardcoded countries, or `program_type` is provided NON-EMPTY and its
LOWERCASE form is not undergraduate/postgraduate/phd, then the tool
returns a `success:false` result carrying an error message and issues no
database query. -/
theorem fetchPrograms_invalid_input_rejected (db : List ProgramRow) (client_ok : Bool)
    (field_of_study : String) (location : Option String) (budget : Option Int)
    (program_type : Option String)
    (h : ¬ validFields.contains field_of_study = true ∨
         (∃ l, location = some l ∧ l ≠ "" ∧ ¬ validLocations.contains l = true) ∨
         (∃ p, program_type = some p ∧ p ≠ "" ∧
            ¬ validProgramTypes.contains (pyLower p) = true)) :
    (fetchPrograms db client_ok field_of_study location budget program_type).1.success
        = false ∧
    (fetchPrograms db client_ok field_of_study location budget program_type).1.error.isSome
        = true ∧
    (fetchPrograms db client_ok field_of_study location budget program_type).2 = false := by
  rw [fetchPrograms.eq_def]
  split
  · exact ⟨rfl, rfl, rfl⟩
  · split
    · exact ⟨rfl, rfl, rfl⟩
    · split
      · exact ⟨rfl, rfl, rfl⟩
      · split
        · exact ⟨rfl, rfl, rfl⟩
        · exfalso
          rename_i hclient hfield hloc hpt
          rcases h with hf | ⟨l, hleq, hlne, hlnc⟩ | ⟨p, hpeq, hpne, hpnc⟩
          · exact hf (not_not.mp hfield)
          · subst hleq
            simp only [Bool.not_eq_true] at hloc
            rw [show (l != "") = true by simpa using hlne] at hloc
            rw [show validLocations.contains l = false from
              Bool.not_eq_true _ ▸ hlnc] at hloc
            simp at hloc
          · subst hpeq
            simp only [Bool.not_eq_true] at hpt
            rw [show (p != "") = true by simpa using hpne] at hpt
            rw [show validProgramTypes.contains (pyLower p) = false from
              Bool.not_eq_true _ ▸ hpnc] at hpt
            simp at hpt

/-- Witness for the amended C10: an unknown field of study is rejected
without a query. -/
theorem fetchPrograms_invalid_input_rejected_witness :
    (fetchPrograms [] true "Basket Weaving" none none none).1.success = false ∧
    (fetchPrograms [] true "Basket Weaving" none none none).1.error.isSome = true ∧
    (fetchPrograms [] true "Basket Weaving" none none none).2 = false :=
  fetchPrograms_invalid_input_rejected [] true "Basket Weaving" none none none
    (Or.inl (by decide))
